import Mathlib

/-!
Verification of the Portable Session Container implementation (bws).

The development shallowly embeds the background script of the Firefox
extension (`src/portab-exporter-firefox/import.js`, background half):
session construction (`createSession`, `createSessionFromSelectedTabs`),
URL validation (`isValidURL`), the crypto envelope
(`encryptData` / `decryptData` / `decryptSession` / `downloadSession`),
and the import path (`processSession` / `importSession`).

Host primitives that the code calls (the WHATWG `URL` parser,
`JSON.stringify`, WebCrypto PBKDF2 / AES-GCM / HMAC / SHA-256,
`btoa` / `atob`) are not code of this repository; they are modelled as
abstract function parameters (`HostEnv`, `CryptoPrims`), with their
standard correctness facts (`GoodPrims`) taken as hypotheses where a
theorem needs them.  Byte strings are modelled as Lean `String`s, so
`TextEncoder` / `TextDecoder` are identities and disappear.
-/

/-- A raw browser tab as delivered by the host `windows.getAll({populate:true})`
API.  `title` and `favIconUrl` are optional; JS falsiness of the empty
string is handled at use sites. -/
structure RawTab where
  url : String
  title : Option String
  pinned : Bool
  favIconUrl : Option String
deriving Repr, DecidableEq

/-- A raw browser window as delivered by the host API. -/
structure RawWindow where
  focused : Bool
  incognito : Bool
  tabs : List RawTab
deriving Repr, DecidableEq

/-- A tab of the output session container, as built by `createSession`
(fields `id`, `url`, `title`, `pinned`, `group_id`, optional `favicon`;
`favicon = none` models the field being absent). -/
structure Tab where
  id : String
  url : String
  title : String
  pinned : Bool
  group_id : Option String
  favicon : Option String
deriving Repr, DecidableEq

/-- A window of the output session container. -/
structure Window where
  active : Bool
  incognito : Bool
  tabs : List Tab
deriving Repr, DecidableEq

/-- The `metadata` object of a session container. -/
structure Metadata where
  created : String
  name : String
  source_browser : String
  source_os : String
  tab_count : Nat
  window_count : Nat
  privacy_mode : Bool
  secure_mode : Bool
deriving Repr, DecidableEq

/-- A session container.  `windows` is the JS object `windowsObj` as an
association list in property order; `groups` is always empty in this
code base (`groupsObj = {}`). -/
structure Session where
  version : String
  format : String
  metadata : Metadata
  windows : List (String × Window)
  groups : List (String × String)
deriving Repr, DecidableEq

/-- The caller-supplied metadata argument of `createSession` /
`createSessionFromSelectedTabs` (only `name`, `privacyMode` and
`secureMode` are read by those functions). -/
structure MetaIn where
  name : String
  privacyMode : Bool
  secureMode : Bool
deriving Repr, DecidableEq

/-- Host primitives used by the session-building code.
`parseOK url` models `new URL(url)` succeeding; `sanitize` models
`sanitizeURL` (tracking-parameter stripping through the host URL API);
`stringify` models `JSON.stringify(session, null, 2)`; `created` models
`new Date().toISOString()` and `platform` models `navigator.platform`. -/
structure HostEnv where
  parseOK : String → Bool
  sanitize : String → String
  stringify : Session → String
  created : String
  platform : String

/-- Character-list prefix test (computable model of JS
`String.prototype.startsWith`). -/
def charsStart : List Char → List Char → Bool
  | _, [] => true
  | [], _ :: _ => false
  | c :: cs, d :: ds => c = d && charsStart cs ds

/-- JS `s.startsWith(p)`. -/
def startsWithS (s p : String) : Bool :=
  charsStart s.data p.data

/-- Model of `isValidURL` from `import.js`: `new URL(url)` must succeed and the
URL must not start with one of the blocked scheme prefixes
(`about:`, `moz-extension:`, `chrome:`, `chrome-extension:`,
`javascript:`, `data:`) and must be non-empty. -/
def isValidURL (env : HostEnv) (url : String) : Bool :=
  env.parseOK url &&
  !startsWithS url "about:" &&
  !startsWithS url "moz-extension:" &&
  !startsWithS url "chrome:" &&
  !startsWithS url "chrome-extension:" &&
  !startsWithS url "javascript:" &&
  !startsWithS url "data:" &&
  decide (url.length > 0)

/-- JS string truthiness: `s || dflt`. -/
def strOr (s dflt : String) : String :=
  if s = "" then dflt else s

/-- JS optional-string truthiness: `s || dflt` where `s` may be absent. -/
def optStrOr (s : Option String) (dflt : String) : String :=
  match s with
  | some t => strOr t dflt
  | none => dflt

/-- The favicon extraction of `createSession`: keep `favIconUrl` only
when it starts with `http`; `data:` URLs (and anything else) become
`null`. -/
def extractFavicon (favIconUrl : Option String) : Option String :=
  match favIconUrl with
  | some f => if startsWithS f "http" then some f else none
  | none => none

/-- The tab-mapping body of `createSession`: privacy mode sanitizes the
URL, sets the title to `"[Private]"` and drops the favicon; secure mode
sets the title to `"[Secure - Hidden]"` and drops the favicon (applied
after privacy mode). -/
def mkTab (env : HostEnv) (privacyMode secureMode : Bool) (tabIndex : Nat)
    (tab : RawTab) : Tab :=
  let url0 := tab.url
  let title0 := optStrOr tab.title "Untitled"
  let favicon0 := extractFavicon tab.favIconUrl
  let url1 := if privacyMode then env.sanitize url0 else url0
  let title1 := if privacyMode then "[Private]" else title0
  let favicon1 := if privacyMode then none else favicon0
  let title2 := if secureMode then "[Secure - Hidden]" else title1
  let favicon2 := if secureMode then none else favicon1
  { id := "tab_" ++ toString (tabIndex + 1)
    url := url1
    title := title2
    pinned := tab.pinned
    group_id := none
    favicon := favicon2 }

/-- Apply `f` to the elements of a list together with their index,
starting at `i` (models `.map((x, idx) => ...)` of the source). -/
def mapIdxFrom (f : Nat → α → β) : Nat → List α → List β
  | _, [] => []
  | i, a :: as => f i a :: mapIdxFrom f (i + 1) as

/-- One iteration of the `windows.forEach` loop of `createSession`:
filter the valid tabs, skip the window when none remain, otherwise emit
the keyed window object (`window_${index+1}`). -/
def mkWindowEntry (env : HostEnv) (pm sm : Bool) (index : Nat)
    (w : RawWindow) : Option (String × Window) :=
  let validTabs := w.tabs.filter (fun t => isValidURL env t.url)
  if validTabs.isEmpty then none
  else some ("window_" ++ toString (index + 1),
    { active := w.focused
      incognito := w.incognito
      tabs := mapIdxFrom (mkTab env pm sm) 0 validTabs })

/-- The `windows.forEach((window, index) => ...)` loop of
`createSession`, accumulating `windowsObj` in insertion order. -/
def buildWindows (env : HostEnv) (pm sm : Bool) :
    Nat → List RawWindow → List (String × Window)
  | _, [] => []
  | i, w :: ws =>
    match mkWindowEntry env pm sm i w with
    | none => buildWindows env pm sm (i + 1) ws
    | some e => e :: buildWindows env pm sm (i + 1) ws

/-- Total tab count over `windowsObj` (the counting loop of
`createSession`). -/
def countTabs (ws : List (String × Window)) : Nat :=
  (ws.map (fun e => e.2.tabs.length)).sum

/-- Model of `createSession(windows, metadata)` from `import.js`. -/
def createSession (env : HostEnv) (windows : List RawWindow)
    (meta : MetaIn) : Session :=
  let windowsObj := buildWindows env meta.privacyMode meta.secureMode 0 windows
  { version := "1.0"
    format := if meta.secureMode then "sportab" else "portab"
    metadata :=
      { created := env.created
        name := strOr meta.name "Browser Session"
        source_browser := "firefox"
        source_os := env.platform
        tab_count := countTabs windowsObj
        window_count := windowsObj.length
        privacy_mode := meta.privacyMode
        secure_mode := meta.secureMode }
    windows := windowsObj
    groups := [] }

/-- A character-list colon search, used by the demo URL parser below. -/
def charsHaveColon : List Char → Bool
  | [] => false
  | c :: cs => c = ':' || charsHaveColon cs

/-- A concrete demo URL-parse predicate for witnesses and
counterexamples: a string parses as an absolute URL when it contains a
colon (which is how the WHATWG parser treats the inputs appearing in
this development: `https:`, `javascript:`, `about:` URLs all parse;
plain words do not). -/
def demoParseOK (u : String) : Bool :=
  charsHaveColon u.data

/-- A concrete demo host environment for witnesses and
counterexamples. -/
def demoEnv : HostEnv :=
  { parseOK := demoParseOK
    sanitize := id
    stringify := fun s => "serialized:" ++ s.format ++ ":" ++ toString s.windows.length
    created := "2026-01-01T00:00:00.000Z"
    platform := "Linux x86_64" }


/-- WebCrypto and base64 primitives used by `encryptData` / `decryptData`
/ `generateHMAC` / `generateHash`.  Byte arrays are modelled as Lean
`String`s (so `TextEncoder`/`TextDecoder` are identities).
`deriveKey password salt` models PBKDF2-SHA-256 with 100000 iterations
producing a 256-bit AES-GCM key; `encrypt key iv m` / `decrypt key iv c`
model AES-GCM (decryption fails with `none` when the cipher's
authentication check fails); `hmacHex data key` models
`generateHMAC(data, key)` (hex output); `sha256Hex` models
`generateHash`; `b64` / `b64dec` model `btoa` / `atob`. -/
structure CryptoPrims where
  deriveKey : String → String → String
  encrypt : String → String → String → String
  decrypt : String → String → String → Option String
  hmacHex : String → String → String
  sha256Hex : String → String
  b64 : String → String
  b64dec : String → Option String

/-- The standard correctness facts of the host crypto primitives:
`atob` inverts `btoa`, and AES-GCM decryption with the right key and
nonce recovers the plaintext. -/
structure GoodPrims (C : CryptoPrims) : Prop where
  b64_inv : ∀ x, C.b64dec (C.b64 x) = some x
  decrypt_encrypt : ∀ key iv m, C.decrypt key iv (C.encrypt key iv m) = some m

/-- The record returned by `encryptData`. -/
structure EncOut where
  encrypted : String
  salt : String
  iv : String
deriving Repr, DecidableEq

/-- Model of `encryptData(data, password)` from `import.js`.  The source draws
`salt` (16 bytes) and `iv` (12 bytes) from `crypto.getRandomValues`;
the randomness is modelled by passing them as arguments. -/
def encryptData (C : CryptoPrims) (data password salt iv : String) : EncOut :=
  { encrypted := C.b64 (C.encrypt (C.deriveKey password salt) iv data)
    salt := C.b64 salt
    iv := C.b64 iv }

/-- Model of `decryptData(encrypted_b64, salt_b64, iv_b64, password)` from
`import.js`.  Any failure inside the `try` block (base64 decoding or
the AES-GCM authentication check) is caught and rethrown as the single
"Decryption failed" error, modelled by `none`. -/
def decryptData (C : CryptoPrims) (encrypted_b64 salt_b64 iv_b64 password : String) :
    Option String :=
  match C.b64dec encrypted_b64, C.b64dec salt_b64, C.b64dec iv_b64 with
  | some ct, some salt, some iv => C.decrypt (C.deriveKey password salt) iv ct
  | _, _, _ => none

/-- The encrypted wrapper object written by the secure branch of
`downloadSession` (`finalData`). -/
structure Envelope where
  version : String
  format : String
  encrypted : Bool
  algorithm : String
  salt : String
  iv : String
  data : String
  signature : String
deriving Repr, DecidableEq

/-- The secure branch of `downloadSession`: encrypt the serialized
session and wrap it with `version`, `format`, `encrypted`, `algorithm`,
`salt`, `iv`, `data` and the HMAC `signature` over the base64
ciphertext keyed by the password. -/
def sealEnvelope (C : CryptoPrims) (jsonString password salt iv : String) : Envelope :=
  let e := encryptData C jsonString password salt iv
  { version := "1.0"
    format := "sportab"
    encrypted := true
    algorithm := "AES-GCM"
    salt := e.salt
    iv := e.iv
    data := e.encrypted
    signature := C.hmacHex e.encrypted password }

/-- An unencrypted `.portab` file: the session object with the
`signature` digest field appended by `downloadSession`'s plain branch. -/
structure PlainFile where
  session : Session
  signature : String
deriving Repr, DecidableEq

/-- What `downloadSession` serializes to disk. -/
inductive FileOut
  | sealed (e : Envelope)
  | plain (p : PlainFile)
deriving Repr, DecidableEq

/-- Model of `downloadSession(sessionData, filename, options)` from `import.js`
(the data it writes; the blob/download plumbing is host I/O).  The JS
guard is `options.secureMode && options.password`, with a missing
password modelled as `""` (falsy).  In the plain branch the digest is
computed over the serialization of the session before the `signature`
field is attached. -/
def downloadSession (C : CryptoPrims) (env : HostEnv) (s : Session)
    (secureMode : Bool) (password : String) (salt iv : String) : FileOut :=
  if secureMode && !(password == "") then
    .sealed (sealEnvelope C (env.stringify s) password salt iv)
  else
    .plain { session := s, signature := C.sha256Hex (env.stringify s) }

/-- The distinct failures of `decryptSession`, by thrown message. -/
inductive SessionErr
  | notEncrypted
  | wrongPasswordOrTampered
  | decryptionFailed
deriving Repr, DecidableEq

/-- The exact error strings of the source for each `SessionErr`. -/
def errMessage : SessionErr → String
  | .notEncrypted => "Session is not encrypted"
  | .wrongPasswordOrTampered => "Invalid password or corrupted file"
  | .decryptionFailed => "Decryption failed - invalid password or corrupted file"

/-- Model of `verifyHMAC(data, signature, key)` from `import.js`: recompute the
HMAC and compare to the stored signature. -/
def verifyHMAC (C : CryptoPrims) (data signature key : String) : Bool :=
  C.hmacHex data key == signature

/-- Model of `decryptSession(options, data)` from `import.js`: reject
non-encrypted input, then verify the HMAC signature before decrypting;
only if it matches, decrypt.  The source finishes with
`JSON.parse(decryptedJson)` for the UI; the operation's payload result
is the decrypted serialized plaintext, returned here. -/
def decryptSession (C : CryptoPrims) (e : Envelope) (password : String) :
    Except SessionErr String :=
  if !e.encrypted then .error .notEncrypted
  else if !(verifyHMAC C e.data e.signature password) then
    .error .wrongPasswordOrTampered
  else
    match decryptData C e.data e.salt e.iv password with
    | some s => .ok s
    | none => .error .decryptionFailed

/-- An uploaded session file after `JSON.parse` (a plain file has no
`encrypted` field, which is falsy in the source's check). -/
inductive SessionFile
  | plain (p : PlainFile)
  | sealed (e : Envelope)
deriving Repr, DecidableEq

/-- The two outcomes of `processSession`: show the password prompt, or
accept the session and render its tab list. -/
inductive ProcessResult
  | promptDecrypt
  | accepted
deriving Repr, DecidableEq

/-- Model of `processSession(sessionData)` from the import page: branch only on
the truthiness of `sessionData.encrypted`; a plain file is accepted and
rendered directly (no digest is recomputed anywhere on this path). -/
def processSession : SessionFile → ProcessResult
  | .plain _ => .accepted
  | .sealed e => if e.encrypted then .promptDecrypt else .accepted

/-- The failures of `importSession`, by thrown message. -/
inductive ImportErr
  | invalidSession
  | invalidURL (url : String)
deriving Repr, DecidableEq

/-- The exact error strings of the source for each `ImportErr`. -/
def importErrMessage : ImportErr → String
  | .invalidSession => "Invalid session data"
  | .invalidURL u => "Invalid URL detected: " ++ u

/-- One `browser.windows.create` call made by `importSession`. -/
structure CreatedWindow where
  urls : List String
  incognito : Bool
  focused : Bool
deriving Repr, DecidableEq

/-- Inner validation loop of `importSession` over one window's tabs:
the first URL failing `isValidURL`, if any. -/
def firstInvalidInTabs (env : HostEnv) : List Tab → Option String
  | [] => none
  | t :: ts =>
    if isValidURL env t.url then firstInvalidInTabs env ts else some t.url

/-- The validation loop of `importSession`: the first tab URL (in
window order, then tab order) failing `isValidURL`, if any. -/
def firstInvalidURL (env : HostEnv) : List (String × Window) → Option String
  | [] => none
  | e :: ws =>
    match firstInvalidInTabs env e.2.tabs with
    | some u => some u
    | none => firstInvalidURL env ws

/-- The creation loop of `importSession`: one `browser.windows.create`
per window with a nonempty URL list; incognito only when both the
stored flag and the `restoreIncognito` option are set. -/
def createWindowsLoop (restoreIncognito : Bool) :
    List (String × Window) → List CreatedWindow
  | [] => []
  | e :: ws =>
    let urls := e.2.tabs.map (fun t => t.url)
    if urls.isEmpty then createWindowsLoop restoreIncognito ws
    else
      { urls := urls
        incognito := e.2.incognito && restoreIncognito
        focused := e.2.active } :: createWindowsLoop restoreIncognito ws

/-- Model of `importSession(options, data)` from `import.js`: validate every tab
URL of every window first, then create windows.  The result pairs the
trace of `browser.windows.create` effects with the outcome (counts of
created windows and tabs, or the thrown error); on a validation error
the trace is empty because the creation loop is never reached. -/
def importSession (env : HostEnv) (restoreIncognito : Bool) (s : Session) :
    List CreatedWindow × Except ImportErr (Nat × Nat) :=
  match firstInvalidURL env s.windows with
  | some u => ([], .error (.invalidURL u))
  | none =>
    let created := createWindowsLoop restoreIncognito s.windows
    (created, .ok (created.length, (created.map (fun w => w.urls.length)).sum))

/-- One element of the `selectedTabsData` array the popup sends with
`export-selected-tabs`. -/
structure SelItem where
  windowIndex : Nat
  tabIndex : Nat
  tab : RawTab
deriving Repr, DecidableEq

/-- Insert an integer key into an ascending list of distinct keys
(JS object property creation for an integer-like key). -/
def insertKey (n : Nat) : List Nat → List Nat
  | [] => [n]
  | m :: ms =>
    if n < m then n :: m :: ms
    else if n = m then m :: ms
    else m :: insertKey n ms

/-- Model of `Object.keys` order of a JS object built by inserting the given
integer-like keys in sequence: distinct keys in ascending numeric order
(models the key order of `tabsByWindow`). -/
def jsIntKeys (l : List Nat) : List Nat :=
  l.foldl (fun acc n => insertKey n acc) []

/-- The tab-mapping body of `createSessionFromSelectedTabs` (same
redaction logic as `createSession`, but no favicon field is ever
produced). -/
def mkSelTab (env : HostEnv) (pm sm : Bool) (tabIndex : Nat) (tab : RawTab) : Tab :=
  let url0 := tab.url
  let title0 := optStrOr tab.title "Untitled"
  let url1 := if pm then env.sanitize url0 else url0
  let title1 := if pm then "[Private]" else title0
  let title2 := if sm then "[Secure - Hidden]" else title1
  { id := "tab_" ++ toString (tabIndex + 1)
    url := url1
    title := title2
    pinned := tab.pinned
    group_id := none
    favicon := none }

/-- Model of `tabsByWindow[wi]`: the tabs of the selected items with source
window `wi`, in the order the items occur in `selectedTabsData`. -/
def selGroupTabs (sel : List SelItem) (wi : Nat) : List RawTab :=
  (sel.filter (fun it => it.windowIndex == wi)).map (fun it => it.tab)

/-- The `Object.keys(tabsByWindow).forEach((windowIndex, idx) => ...)`
loop of `createSessionFromSelectedTabs`: the output key and the
`active` flag use `idx`, the position among all groups (including
groups later skipped for having no valid tab). -/
def buildSelWindows (env : HostEnv) (pm sm : Bool) (sel : List SelItem) :
    Nat → List Nat → List (String × Window)
  | _, [] => []
  | idx, wi :: keys =>
    let validTabs := (selGroupTabs sel wi).filter (fun t => isValidURL env t.url)
    if validTabs.isEmpty then buildSelWindows env pm sm sel (idx + 1) keys
    else
      ("window_" ++ toString (idx + 1),
        { active := idx == 0
          incognito := false
          tabs := mapIdxFrom (mkSelTab env pm sm) 0 validTabs })
        :: buildSelWindows env pm sm sel (idx + 1) keys

/-- Model of `createSessionFromSelectedTabs(selectedTabsData, metadata)` from
`import.js`. -/
def createSessionFromSelectedTabs (env : HostEnv) (sel : List SelItem)
    (meta : MetaIn) : Session :=
  let windowsObj := buildSelWindows env meta.privacyMode meta.secureMode sel 0
    (jsIntKeys (sel.map (fun it => it.windowIndex)))
  { version := "1.0"
    format := if meta.secureMode then "sportab" else "portab"
    metadata :=
      { created := env.created
        name := strOr meta.name "Selected Tabs Session"
        source_browser := "firefox"
        source_os := env.platform
        tab_count := countTabs windowsObj
        window_count := windowsObj.length
        privacy_mode := meta.privacyMode
        secure_mode := meta.secureMode }
    windows := windowsObj
    groups := [] }

/-- Model of `handleExportSelectedConfirm` from the popup: walk the selection
Set in insertion (click) order and build `selectedTabsData` by looking
each `windowIndex-tabIndex` id up in the snapshot of windows. -/
def buildSelectedTabsData (wins : List RawWindow) (sel : List (Nat × Nat)) :
    List SelItem :=
  sel.filterMap (fun p =>
    (wins.get? p.1).bind (fun w =>
      (w.tabs.get? p.2).map (fun t => ⟨p.1, p.2, t⟩)))

/-- A concrete demo instance of the crypto primitives for witnesses and
counterexamples (identity cipher, tagged key derivation and MACs). -/
def demoPrims : CryptoPrims :=
  { deriveKey := fun password salt => "key:" ++ password ++ ":" ++ salt
    encrypt := fun _ _ m => m
    decrypt := fun _ _ c => some c
    hmacHex := fun data key => "hmac:" ++ key ++ ":" ++ data
    sha256Hex := fun data => "sha:" ++ data
    b64 := fun s => s
    b64dec := fun s => some s }

/-- The example raw window of the spec's scenario: an `https` pinned
tab, a `javascript:` tab, and a second `https` tab. -/
def demoWindow : RawWindow :=
  { focused := true
    incognito := false
    tabs :=
      [ { url := "https://a.example", title := some "A", pinned := true,
          favIconUrl := none },
        { url := "javascript:alert(1)", title := some "evil", pinned := false,
          favIconUrl := none },
        { url := "https://b.example", title := some "B", pinned := false,
          favIconUrl := none } ] }

/-- Demo metadata input (no redaction). -/
def demoMeta : MetaIn :=
  { name := "Demo", privacyMode := false, secureMode := false }

/-- A concrete built session for witnesses and counterexamples. -/
def demoSession : Session :=
  createSession demoEnv [demoWindow] demoMeta

/-- A raw window with three valid tabs A, B, C, for the reduction-order
scenario. -/
def abcWindow : RawWindow :=
  { focused := true
    incognito := false
    tabs :=
      [ { url := "https://a.example", title := some "A", pinned := false,
          favIconUrl := none },
        { url := "https://b.example", title := some "B", pinned := false,
          favIconUrl := none },
        { url := "https://c.example", title := some "C", pinned := false,
          favIconUrl := none } ] }

/-- A session whose only tab has a privileged URL, for the import
validation scenario. -/
def badSession : Session :=
  { version := "1.0"
    format := "portab"
    metadata :=
      { created := "2026-01-01T00:00:00.000Z", name := "Bad",
        source_browser := "firefox", source_os := "Linux x86_64",
        tab_count := 1, window_count := 1,
        privacy_mode := false, secure_mode := false }
    windows :=
      [("window_1",
        { active := true, incognito := false,
          tabs := [{ id := "tab_1", url := "about:config", title := "cfg",
                     pinned := false, group_id := none, favicon := none }] })]
    groups := [] }

/-- A selection whose first source-window group consists only of an
invalid URL, while a second group holds a valid tab. -/
def selDropFirst : List SelItem :=
  [ ⟨0, 0, { url := "about:blank", title := some "t", pinned := false,
             favIconUrl := none }⟩,
    ⟨1, 0, { url := "https://a.example", title := some "A", pinned := false,
             favIconUrl := none }⟩ ]

/-- A selection spanning two source windows, every tab valid. -/
def selAllValid : List SelItem :=
  [ ⟨0, 0, { url := "https://a.example", title := some "A", pinned := false,
             favIconUrl := none }⟩,
    ⟨1, 0, { url := "https://b.example", title := some "B", pinned := false,
             favIconUrl := none }⟩ ]

/-- The demo primitives satisfy the host correctness facts. -/
theorem demoPrims_good : GoodPrims demoPrims :=
  ⟨fun _ => rfl, fun _ _ _ => rfl⟩

/-- Helper: `decryptSession` on an encrypted envelope whose stored tag
disagrees with the recomputed HMAC reports the wrong-password error. -/
theorem decryptSession_tag_mismatch (C : CryptoPrims) (e : Envelope) (p : String)
    (henc : e.encrypted = true) (h : C.hmacHex e.data p ≠ e.signature) :
    decryptSession C e p = .error .wrongPasswordOrTampered := by
  unfold decryptSession verifyHMAC
  simp [henc, h]

/-- C1: opening a sealed envelope with any password whose recomputed
keyed tag differs from the stored one fails with
`wrongPasswordOrTampered` — never with another error, never
successfully — and the failure is decided before decryption: the result
is the same for every possible decryption function. -/
theorem wrong_password_rejected_before_decryption (C : CryptoPrims)
    (p1 p2 plaintext salt iv : String) (hne : p1 ≠ p2)
    (htag : C.hmacHex (sealEnvelope C plaintext p1 salt iv).data p2 ≠
      (sealEnvelope C plaintext p1 salt iv).signature) :
    decryptSession C (sealEnvelope C plaintext p1 salt iv) p2 =
      .error .wrongPasswordOrTampered ∧
    ∀ d : String → String → String → Option String,
      decryptSession { C with decrypt := d }
        (sealEnvelope C plaintext p1 salt iv) p2 =
        .error .wrongPasswordOrTampered := by
  refine ⟨decryptSession_tag_mismatch C _ p2 rfl htag, fun d => ?_⟩
  exact decryptSession_tag_mismatch { C with decrypt := d } _ p2 rfl htag

/-- C1 witness: with the demo primitives and passwords `"a"` and `"b"`,
the wrong password is rejected as `wrongPasswordOrTampered` regardless
of the decryption function. -/
theorem wrong_password_rejected_before_decryption_witness :
    ("a" : String) ≠ "b" ∧
    decryptSession demoPrims (sealEnvelope demoPrims "payload" "a" "s" "i") "b" =
      .error .wrongPasswordOrTampered :=
  ⟨by decide,
    (wrong_password_rejected_before_decryption demoPrims "a" "b" "payload" "s" "i"
      (by decide) (by decide)).1⟩

/-- C5: opening a sealed envelope with the password it was sealed under
returns exactly the serialized plaintext that was sealed. -/
theorem seal_open_roundtrip (C : CryptoPrims) (hC : GoodPrims C)
    (plaintext password salt iv : String) :
    decryptSession C (sealEnvelope C plaintext password salt iv) password =
      .ok plaintext := by
  unfold decryptSession sealEnvelope encryptData verifyHMAC decryptData
  simp [hC.b64_inv, hC.decrypt_encrypt]

/-- C5 witness: the round trip at concrete inputs with the demo
primitives. -/
theorem seal_open_roundtrip_witness :
    decryptSession demoPrims (sealEnvelope demoPrims "payload" "pw" "s" "i") "pw" =
      .ok "payload" :=
  seal_open_roundtrip demoPrims demoPrims_good "payload" "pw" "s" "i"

/-- C6 counterexample: the sealed envelope's `format` field is
`"sportab"`, not `"secure"` as the claim states. -/
theorem sealed_format_value_counterexample :
    (sealEnvelope demoPrims "payload" "pw" "s" "i").format = "sportab" ∧
    (sealEnvelope demoPrims "payload" "pw" "s" "i").format ≠ "secure" := by
  decide

/-- C6 amended: a sealed download consists exactly of the fields
`version`, `format: "sportab"`, `encrypted: true`, `algorithm`, `salt`,
`iv`, `data` (ciphertext of the serialized session, which carries no
plaintext digest field) and the keyed `signature`; no plaintext session
field is present, and the output never involves the plaintext content
digest (it is invariant under replacing `sha256Hex`). -/
theorem sealed_envelope_fields (C : CryptoPrims) (env : HostEnv) (s : Session)
    (password salt iv : String) (hpw : password ≠ "") :
    downloadSession C env s true password salt iv =
      .sealed
        { version := "1.0"
          format := "sportab"
          encrypted := true
          algorithm := "AES-GCM"
          salt := C.b64 salt
          iv := C.b64 iv
          data := C.b64 (C.encrypt (C.deriveKey password salt) iv (env.stringify s))
          signature := C.hmacHex
            (C.b64 (C.encrypt (C.deriveKey password salt) iv (env.stringify s)))
            password } ∧
    ∀ f : String → String,
      downloadSession { C with sha256Hex := f } env s true password salt iv =
        downloadSession C env s true password salt iv := by
  constructor
  · unfold downloadSession sealEnvelope encryptData
    simp [hpw]
  · intro f
    unfold downloadSession sealEnvelope encryptData
    simp [hpw]

/-- C6 witness: the sealed fields at concrete inputs. -/
theorem sealed_envelope_fields_witness :
    ("pw" : String) ≠ "" ∧
    downloadSession demoPrims demoEnv demoSession true "pw" "s" "i" =
      .sealed
        { version := "1.0"
          format := "sportab"
          encrypted := true
          algorithm := "AES-GCM"
          salt := "s"
          iv := "i"
          data := "serialized:portab:1"
          signature := "hmac:pw:serialized:portab:1" } :=
  ⟨by decide,
    (sealed_envelope_fields demoPrims demoEnv demoSession "pw" "s" "i"
      (by decide)).1⟩

/-- C2 counterexample: a plain container whose stored `signature`
disagrees with the recomputed digest over its payload is nevertheless
accepted by the reader — `processSession` renders it and
`importSession` restores it; no `IntegrityMismatch` failure exists on
this path. -/
theorem plain_digest_not_checked_counterexample :
    ("deadbeef" : String) ≠ demoPrims.sha256Hex (demoEnv.stringify demoSession) ∧
    processSession (.plain { session := demoSession, signature := "deadbeef" }) =
      .accepted ∧
    (importSession demoEnv false demoSession).2 = .ok (1, 2) :=
  ⟨by decide, rfl, rfl⟩

/-- C2 amended: the plain-format digest is write-only.  The writer
stores `sha256Hex` of the serialized payload (computed before the
`signature` field is attached), but the reader accepts a plain
container with any `signature` value whatsoever: `processSession`
renders it without recomputing the digest. -/
theorem plain_digest_write_only (C : CryptoPrims) (env : HostEnv) (s : Session)
    (sig : String) :
    downloadSession C env s false "" "" "" =
      .plain { session := s, signature := C.sha256Hex (env.stringify s) } ∧
    processSession (.plain { session := s, signature := sig }) = .accepted := by
  exact ⟨rfl, rfl⟩

/-- Helper: what a successful inner validation scan means. -/
theorem firstInvalidInTabs_some (env : HostEnv) (ts : List Tab) (u : String)
    (h : firstInvalidInTabs env ts = some u) :
    isValidURL env u = false ∧ ∃ t ∈ ts, t.url = u := by
  induction ts with
  | nil => simp [firstInvalidInTabs] at h
  | cons t ts ih =>
    unfold firstInvalidInTabs at h
    by_cases hv : isValidURL env t.url
    · simp [hv] at h
      obtain ⟨h1, t', ht', hu⟩ := ih h
      exact ⟨h1, t', List.mem_cons_of_mem _ ht', hu⟩
    · simp [hv] at h
      subst h
      exact ⟨Bool.eq_false_iff.mpr hv, t, List.mem_cons_self _ _, rfl⟩
  
/-- Helper: the inner validation scan finds nothing iff every tab URL
is valid. -/
theorem firstInvalidInTabs_eq_none (env : HostEnv) (ts : List Tab) :
    firstInvalidInTabs env ts = none ↔ ∀ t ∈ ts, isValidURL env t.url = true := by
  induction ts with
  | nil => simp [firstInvalidInTabs]
  | cons t ts ih =>
    unfold firstInvalidInTabs
    by_cases hv : isValidURL env t.url
    · simp [hv, ih]
    · simp [hv]

/-- Helper: if some tab of some window fails validation, the validation
loop reports a failing URL taken from the session. -/
theorem firstInvalidURL_spec (env : HostEnv) (ws : List (String × Window))
    (h : ∃ e ∈ ws, ∃ t ∈ e.2.tabs, isValidURL env t.url = false) :
    ∃ u, firstInvalidURL env ws = some u ∧ isValidURL env u = false ∧
      ∃ e ∈ ws, ∃ t ∈ e.2.tabs, t.url = u := by
  induction ws with
  | nil => simp at h
  | cons e ws ih =>
    unfold firstInvalidURL
    cases hscan : firstInvalidInTabs env e.2.tabs with
    | some u =>
      obtain ⟨h1, t, ht, hu⟩ := firstInvalidInTabs_some env e.2.tabs u hscan
      exact ⟨u, rfl, h1, e, List.mem_cons_self _ _, t, ht, hu⟩
    | none =>
      have hall := (firstInvalidInTabs_eq_none env e.2.tabs).mp hscan
      obtain ⟨e', he', t, ht, hv⟩ := h
      rcases List.mem_cons.mp he' with rfl | he'
      · rw [hall t ht] at hv
        cases hv
      · obtain ⟨u, hu, h1, e'', he'', hm⟩ := ih ⟨e', he', t, ht, hv⟩
        exact ⟨u, hu, h1, e'', List.mem_cons_of_mem _ he'', hm⟩

/-- C10: `importSession` validates every tab URL of every window before
creating anything: if any tab URL fails validation, the result is the
invalid-URL error naming a failing URL of the session, and the trace of
`browser.windows.create` calls is empty. -/
theorem import_validates_before_creating (env : HostEnv) (ri : Bool) (s : Session)
    (h : ∃ e ∈ s.windows, ∃ t ∈ e.2.tabs, isValidURL env t.url = false) :
    ∃ u, importSession env ri s = ([], .error (.invalidURL u)) ∧
      isValidURL env u = false ∧
      ∃ e ∈ s.windows, ∃ t ∈ e.2.tabs, t.url = u := by
  obtain ⟨u, hu, h1, hm⟩ := firstInvalidURL_spec env s.windows h
  refine ⟨u, ?_, h1, hm⟩
  unfold importSession
  rw [hu]

/-- C10 witness: a session holding an `about:` URL is rejected whole,
with no window created. -/
theorem import_validates_before_creating_witness :
    (∃ e ∈ badSession.windows, ∃ t ∈ e.2.tabs, isValidURL demoEnv t.url = false) ∧
    ∃ u, importSession demoEnv false badSession = ([], .error (.invalidURL u)) ∧
      isValidURL demoEnv u = false ∧
      ∃ e ∈ badSession.windows, ∃ t ∈ e.2.tabs, t.url = u :=
  ⟨by decide, import_validates_before_creating demoEnv false badSession (by decide)⟩

/-- Helper: `mapIdxFrom` preserves length. -/
theorem mapIdxFrom_length (f : Nat → α → β) :
    ∀ (i : Nat) (l : List α), (mapIdxFrom f i l).length = l.length := by
  intro i l
  induction l generalizing i with
  | nil => rfl
  | cons a as ih => simp [mapIdxFrom, ih]

/-- Helper: members of `mapIdxFrom` are images of members. -/
theorem mem_mapIdxFrom (f : Nat → α → β) :
    ∀ (i : Nat) (l : List α) (b : β), b ∈ mapIdxFrom f i l →
      ∃ j a, a ∈ l ∧ b = f j a := by
  intro i l
  induction l generalizing i with
  | nil => intro b h; simp [mapIdxFrom] at h
  | cons a as ih =>
    intro b h
    rcases List.mem_cons.mp h with h | h
    · exact ⟨i, a, List.mem_cons_self _ _, h⟩
    · obtain ⟨j, a', ha', hb⟩ := ih (i + 1) b h
      exact ⟨j, a', List.mem_cons_of_mem _ ha', hb⟩

/-- Helper: mapping a projection over `mapIdxFrom`. -/
theorem map_mapIdxFrom (f : Nat → α → β) (g : β → γ) (G : Nat → α → γ)
    (h : ∀ i a, g (f i a) = G i a) :
    ∀ (i : Nat) (l : List α), (mapIdxFrom f i l).map g = mapIdxFrom G i l := by
  intro i l
  induction l generalizing i with
  | nil => rfl
  | cons a as ih => simp [mapIdxFrom, h, ih]

/-- Helper: `mapIdxFrom` with an index-independent function is `map`. -/
theorem mapIdxFrom_of_const (h : α → β) :
    ∀ (i : Nat) (l : List α), mapIdxFrom (fun _ a => h a) i l = l.map h := by
  intro i l
  induction l generalizing i with
  | nil => rfl
  | cons a as ih => simp [mapIdxFrom, ih]

/-- Helper: `mapIdxFrom` with a function of the index alone enumerates
`List.range'`. -/
theorem mapIdxFrom_eq_rangeMap (F : Nat → α → β) (G : Nat → β)
    (h : ∀ i a, F i a = G i) :
    ∀ (i : Nat) (l : List α), mapIdxFrom F i l = (List.range' i l.length).map G := by
  intro i l
  induction l generalizing i with
  | nil => rfl
  | cons a as ih => simp [mapIdxFrom, List.range'_succ, h, ih]

/-- Helper: `buildWindows` keeps exactly the source windows having at
least one valid tab. -/
theorem buildWindows_length (env : HostEnv) (pm sm : Bool) :
    ∀ (i : Nat) (ws : List RawWindow),
      (buildWindows env pm sm i ws).length =
        (ws.filter (fun w =>
          !(w.tabs.filter (fun t => isValidURL env t.url)).isEmpty)).length := by
  intro i ws
  induction ws generalizing i with
  | nil => rfl
  | cons w ws ih =>
    unfold buildWindows mkWindowEntry
    by_cases hw : (w.tabs.filter (fun t => isValidURL env t.url)).isEmpty = true
    · simp [hw, ih]
    · simp [Bool.eq_false_iff.mpr hw, ih]

/-- Helper: every window emitted by `buildWindows` has a nonempty tab
list. -/
theorem buildWindows_nonempty (env : HostEnv) (pm sm : Bool) :
    ∀ (i : Nat) (ws : List RawWindow),
      ∀ e ∈ buildWindows env pm sm i ws, e.2.tabs ≠ [] := by
  intro i ws
  induction ws generalizing i with
  | nil => intro e h; simp [buildWindows] at h
  | cons w ws ih =>
    intro e h
    unfold buildWindows mkWindowEntry at h
    by_cases hw : (w.tabs.filter (fun t => isValidURL env t.url)).isEmpty = true
    · simp [hw] at h
      exact ih (i + 1) e h
    · simp [Bool.eq_false_iff.mpr hw] at h
      rcases h with h | h
      · intro hnil
        rw [h] at hnil
        simp at hnil
        have : (w.tabs.filter (fun t => isValidURL env t.url)).length = 0 := by
          rw [← mapIdxFrom_length (mkTab env pm sm) 0]
          simp [hnil]
        exact hw (List.isEmpty_iff_length_eq_zero.mpr this)
      · exact ih (i + 1) e h

/-- C7: a built container's `tab_count` is the sum of the tab counts of
its windows, its `window_count` is the number of windows present, only
source windows with at least one valid tab are present, and no emitted
window is empty. -/
theorem session_counts_invariant (env : HostEnv) (ws : List RawWindow) (m : MetaIn) :
    (createSession env ws m).metadata.tab_count =
      (((createSession env ws m).windows).map (fun e => e.2.tabs.length)).sum ∧
    (createSession env ws m).metadata.window_count =
      ((createSession env ws m).windows).length ∧
    ((createSession env ws m).windows).length =
      (ws.filter (fun w =>
        !(w.tabs.filter (fun t => isValidURL env t.url)).isEmpty)).length ∧
    ∀ e ∈ (createSession env ws m).windows, e.2.tabs ≠ [] :=
  ⟨rfl, rfl, buildWindows_length env m.privacyMode m.secureMode 0 ws,
    buildWindows_nonempty env m.privacyMode m.secureMode 0 ws⟩

/-- Helper: an entry emitted by `buildWindows` comes from a source
window via `mkWindowEntry`. -/
theorem mem_buildWindows (env : HostEnv) (pm sm : Bool) :
    ∀ (i : Nat) (ws : List RawWindow) (e : String × Window),
      e ∈ buildWindows env pm sm i ws →
      ∃ j w, w ∈ ws ∧ mkWindowEntry env pm sm j w = some e := by
  intro i ws
  induction ws generalizing i with
  | nil => intro e h; simp [buildWindows] at h
  | cons w ws ih =>
    intro e h
    unfold buildWindows at h
    cases h1 : mkWindowEntry env pm sm i w with
    | none =>
      rw [h1] at h
      obtain ⟨j, w', hw', he⟩ := ih (i + 1) e h
      exact ⟨j, w', List.mem_cons_of_mem _ hw', he⟩
    | some e' =>
      rw [h1] at h
      rcases List.mem_cons.mp h with rfl | h
      · exact ⟨i, w, List.mem_cons_self _ _, h1⟩
      · obtain ⟨j, w', hw', he⟩ := ih (i + 1) e h
        exact ⟨j, w', List.mem_cons_of_mem _ hw', he⟩

/-- Helper: the tabs of an emitted window are images under `mkTab` of
that window's valid tabs. -/
theorem mkWindowEntry_tabs (env : HostEnv) (pm sm : Bool) (j : Nat)
    (w : RawWindow) (e : String × Window)
    (h : mkWindowEntry env pm sm j w = some e) :
    ∀ t ∈ e.2.tabs, ∃ k a,
      a ∈ w.tabs.filter (fun t' => isValidURL env t'.url) ∧
      t = mkTab env pm sm k a := by
  intro t ht
  unfold mkWindowEntry at h
  by_cases hw : (w.tabs.filter (fun t' => isValidURL env t'.url)).isEmpty = true
  · simp [hw] at h
  · simp [Bool.eq_false_iff.mpr hw] at h
    rw [← h] at ht
    simp at ht
    exact mem_mapIdxFrom (mkTab env pm sm) 0 _ t ht

/-- Helper: without privacy mode, `mkTab` leaves the URL unchanged. -/
theorem mkTab_url_no_privacy (env : HostEnv) (sm : Bool) (k : Nat) (a : RawTab) :
    (mkTab env false sm k a).url = a.url := rfl

/-- Helper: without privacy mode, the URL lists of the built windows
are exactly the per-source-window lists of validated URLs. -/
theorem buildWindows_urls (env : HostEnv) (sm : Bool) :
    ∀ (i : Nat) (ws : List RawWindow),
      (buildWindows env false sm i ws).map (fun e => e.2.tabs.map (fun t => t.url)) =
        (ws.filter (fun w =>
          !(w.tabs.filter (fun t => isValidURL env t.url)).isEmpty)).map
          (fun w => (w.tabs.filter (fun t => isValidURL env t.url)).map
            (fun t => t.url)) := by
  intro i ws
  induction ws generalizing i with
  | nil => rfl
  | cons w ws ih =>
    unfold buildWindows mkWindowEntry
    by_cases hw : (w.tabs.filter (fun t => isValidURL env t.url)).isEmpty = true
    · simp [hw, ih]
    · simp [Bool.eq_false_iff.mpr hw,
        map_mapIdxFrom (mkTab env false sm) (fun t => t.url) (fun _ a => a.url)
          (fun _ _ => rfl),
        mapIdxFrom_of_const, ih]

/-- C4: building a container (without privacy rewriting) keeps, per
source window, exactly the tabs whose URL passes `isValidURL` — which
requires the URL to parse and its scheme prefix to avoid the blocklist
(`about:`, `moz-extension:`, `chrome:`, `chrome-extension:`,
`javascript:`, `data:`) — in source order, and every tab of the result
has a validated URL. -/
theorem tabs_filtered_by_url_validation (env : HostEnv) (ws : List RawWindow)
    (m : MetaIn) (hpm : m.privacyMode = false) :
    ((createSession env ws m).windows).map (fun e => e.2.tabs.map (fun t => t.url)) =
      (ws.filter (fun w =>
        !(w.tabs.filter (fun t => isValidURL env t.url)).isEmpty)).map
        (fun w => (w.tabs.filter (fun t => isValidURL env t.url)).map
          (fun t => t.url)) ∧
    ∀ e ∈ (createSession env ws m).windows, ∀ t ∈ e.2.tabs,
      isValidURL env t.url = true := by
  constructor
  · show (buildWindows env m.privacyMode m.secureMode 0 ws).map _ = _
    rw [hpm]
    exact buildWindows_urls env m.secureMode 0 ws
  · intro e he t ht
    have he' : e ∈ buildWindows env m.privacyMode m.secureMode 0 ws := he
    rw [hpm] at he'
    obtain ⟨j, w, _, hent⟩ := mem_buildWindows env false m.secureMode 0 ws e he'
    obtain ⟨k, a, ha, hta⟩ := mkWindowEntry_tabs env false m.secureMode j w e hent t ht
    rw [hta, mkTab_url_no_privacy]
    exact (List.mem_filter.mp ha).2

/-- C4 witness: the spec's example — an `https` pinned tab, a
`javascript:` tab and a second `https` tab yield one window with the
two `https` tabs, `tab_count = 2`, first tab pinned. -/
theorem tabs_filtered_by_url_validation_witness :
    demoMeta.privacyMode = false ∧
    (((createSession demoEnv [demoWindow] demoMeta).windows).map
        (fun e => e.2.tabs.map (fun t => t.url)) =
      (([demoWindow].filter (fun w =>
        !(w.tabs.filter (fun t => isValidURL demoEnv t.url)).isEmpty)).map
        (fun w => (w.tabs.filter (fun t => isValidURL demoEnv t.url)).map
          (fun t => t.url))) ∧
      ∀ e ∈ (createSession demoEnv [demoWindow] demoMeta).windows,
        ∀ t ∈ e.2.tabs, isValidURL demoEnv t.url = true) ∧
    (createSession demoEnv [demoWindow] demoMeta).metadata.tab_count = 2 ∧
    (createSession demoEnv [demoWindow] demoMeta).metadata.window_count = 1 ∧
    ((createSession demoEnv [demoWindow] demoMeta).windows).map
        (fun e => e.2.tabs.map (fun t => (t.url, t.pinned))) =
      [[("https://a.example", true), ("https://b.example", false)]] :=
  ⟨rfl, tabs_filtered_by_url_validation demoEnv [demoWindow] demoMeta rfl,
    by decide, by decide, by decide⟩

/-- Helper: two `buildWindows` runs whose per-window entries agree under
projections `F` and `G` have equal projected outputs. -/
theorem buildWindows_map_proj (env : HostEnv) (pm sm pm' sm' : Bool)
    (F G : String × Window → γ)
    (h : ∀ j w, (mkWindowEntry env pm sm j w).map F =
      (mkWindowEntry env pm' sm' j w).map G) :
    ∀ (i : Nat) (ws : List RawWindow),
      (buildWindows env pm sm i ws).map F = (buildWindows env pm' sm' i ws).map G := by
  intro i ws
  induction ws generalizing i with
  | nil => rfl
  | cons w ws ih =>
    have hw := h i w
    unfold buildWindows
    cases h1 : mkWindowEntry env pm sm i w with
    | none =>
      cases h2 : mkWindowEntry env pm' sm' i w with
      | none => exact ih (i + 1)
      | some e' => rw [h1, h2] at hw; simp at hw
    | some e =>
      cases h2 : mkWindowEntry env pm' sm' i w with
      | none => rw [h1, h2] at hw; simp at hw
      | some e' =>
        rw [h1, h2] at hw
        simp at hw
        simp [hw, ih (i + 1)]

/-- Helper: the structural projection (id, pinned, group id) of the
mapped tabs does not depend on the redaction flags. -/
theorem tabProj_mapIdx (env : HostEnv) (pm sm : Bool) (v : List RawTab) :
    (mapIdxFrom (mkTab env pm sm) 0 v).map
        (fun t => (t.id, t.pinned, t.group_id)) =
      mapIdxFrom
        (fun k a => ("tab_" ++ toString (k + 1), a.pinned, (none : Option String)))
        0 v :=
  map_mapIdxFrom (mkTab env pm sm) _ _ (fun _ _ => rfl) 0 v

/-- C9: secure mode replaces every tab title with the hidden
placeholder and drops every favicon while leaving every URL unchanged,
and neither redaction flag changes window keys, window counts, tab
counts, ordering, or the structural tab fields. -/
theorem secure_mode_redaction (env : HostEnv) (ws : List RawWindow) (name : String) :
    (∀ pm sm : Bool,
      ((createSession env ws ⟨name, pm, sm⟩).windows).map
          (fun e => (e.1, e.2.active, e.2.incognito,
            e.2.tabs.map (fun t => (t.id, t.pinned, t.group_id)))) =
        ((createSession env ws ⟨name, false, false⟩).windows).map
          (fun e => (e.1, e.2.active, e.2.incognito,
            e.2.tabs.map (fun t => (t.id, t.pinned, t.group_id))))) ∧
    ((createSession env ws ⟨name, false, true⟩).windows).map
        (fun e => e.2.tabs.map (fun t => t.url)) =
      ((createSession env ws ⟨name, false, false⟩).windows).map
        (fun e => e.2.tabs.map (fun t => t.url)) ∧
    ∀ e ∈ (createSession env ws ⟨name, false, true⟩).windows, ∀ t ∈ e.2.tabs,
      t.title = "[Secure - Hidden]" ∧ t.favicon = none := by
  refine ⟨fun pm sm => ?_, ?_, ?_⟩
  · apply buildWindows_map_proj
    intro j w
    unfold mkWindowEntry
    by_cases hw : (w.tabs.filter (fun t => isValidURL env t.url)).isEmpty = true
    · simp [hw]
    · simp [Bool.eq_false_iff.mpr hw, tabProj_mapIdx]
  · apply buildWindows_map_proj
    intro j w
    unfold mkWindowEntry
    by_cases hw : (w.tabs.filter (fun t => isValidURL env t.url)).isEmpty = true
    · simp [hw]
    · simp [Bool.eq_false_iff.mpr hw,
        map_mapIdxFrom (mkTab env false true) (fun t => t.url) (fun _ a => a.url)
          (fun _ _ => rfl),
        map_mapIdxFrom (mkTab env false false) (fun t => t.url) (fun _ a => a.url)
          (fun _ _ => rfl)]
  · intro e he t ht
    obtain ⟨j, w, _, hent⟩ :=
      mem_buildWindows env false true 0 ws e he
    obtain ⟨k, a, _, hta⟩ := mkWindowEntry_tabs env false true j w e hent t ht
    rw [hta]
    exact ⟨rfl, rfl⟩

/-- C3 counterexample: selecting tab C then tab A (click order) from a
window [A, B, C] yields the output order [C, A] — the selection order —
not the source order [A, C] the claim states. -/
theorem reduction_click_order_counterexample :
    ((createSessionFromSelectedTabs demoEnv
        (buildSelectedTabsData [abcWindow] [(0, 2), (0, 0)]) demoMeta).windows).map
      (fun e => e.2.tabs.map (fun t => t.url)) =
      [["https://c.example", "https://a.example"]] ∧
    ((createSessionFromSelectedTabs demoEnv
        (buildSelectedTabsData [abcWindow] [(0, 2), (0, 0)]) demoMeta).windows).map
      (fun e => e.2.tabs.map (fun t => t.url)) ≠
      [["https://a.example", "https://c.example"]] := by
  decide

/-- C3 amended: the reduced container lists the selected tabs of a
window in the order they occur in the selection set (insertion = click
order), not in their original intra-window order: selecting the tab at
position `j` and then the tab at position `i` yields [tab j, tab i]. -/
theorem reduction_selection_order (env : HostEnv) (m : MetaIn) (w : RawWindow)
    (i j : Nat) (ti tj : RawTab)
    (hpm : m.privacyMode = false)
    (hi : w.tabs[i]? = some ti) (hj : w.tabs[j]? = some tj)
    (hvi : isValidURL env ti.url = true) (hvj : isValidURL env tj.url = true) :
    ((createSessionFromSelectedTabs env
        (buildSelectedTabsData [w] [(0, j), (0, i)]) m).windows).map
      (fun e => e.2.tabs.map (fun t => t.url)) = [[tj.url, ti.url]] := by
  have hsel : buildSelectedTabsData [w] [(0, j), (0, i)] =
      [⟨0, j, tj⟩, ⟨0, i, ti⟩] := by
    simp [buildSelectedTabsData, hi, hj]
  rw [hsel]
  simp [createSessionFromSelectedTabs, hpm, jsIntKeys, insertKey,
    buildSelWindows, selGroupTabs, hvi, hvj, mkSelTab, mapIdxFrom]

/-- C3 witness: the amended order at the concrete [A, B, C] window with
click order C then A. -/
theorem reduction_selection_order_witness :
    demoMeta.privacyMode = false ∧
    abcWindow.tabs[0]? =
      some { url := "https://a.example", title := some "A", pinned := false,
             favIconUrl := none } ∧
    abcWindow.tabs[2]? =
      some { url := "https://c.example", title := some "C", pinned := false,
             favIconUrl := none } ∧
    ((createSessionFromSelectedTabs demoEnv
        (buildSelectedTabsData [abcWindow] [(0, 2), (0, 0)]) demoMeta).windows).map
      (fun e => e.2.tabs.map (fun t => t.url)) =
      [["https://c.example", "https://a.example"]] :=
  ⟨rfl, by decide, by decide,
    reduction_selection_order demoEnv demoMeta abcWindow 0 2
      { url := "https://a.example", title := some "A", pinned := false,
        favIconUrl := none }
      { url := "https://c.example", title := some "C", pinned := false,
        favIconUrl := none }
      rfl (by decide) (by decide) (by decide) (by decide)⟩

/-- C8 counterexample: when every tab of the first selected
source-window group fails URL validation, the sole output window is
keyed `window_2` with `active = false` — numbering does not start at 1
and no output window is active. -/
theorem reduction_renumbering_counterexample :
    ((createSessionFromSelectedTabs demoEnv selDropFirst demoMeta).windows).map
      (fun e => (e.1, e.2.active)) = [("window_2", false)] ∧
    ([("window_2", false)] : List (String × Bool)) ≠ [("window_1", true)] := by
  decide

/-- Helper: when every selected group keeps at least one valid tab,
`buildSelWindows` emits one window per group, indexed in order. -/
theorem buildSelWindows_eq_of_all (env : HostEnv) (pm sm : Bool)
    (sel : List SelItem) :
    ∀ keys : List Nat,
      (∀ wi ∈ keys,
        ((selGroupTabs sel wi).filter (fun t => isValidURL env t.url)).isEmpty =
          false) →
      ∀ idx, buildSelWindows env pm sm sel idx keys =
        mapIdxFrom (fun k wi =>
          ("window_" ++ toString (k + 1),
            { active := k == 0
              incognito := false
              tabs := mapIdxFrom (mkSelTab env pm sm) 0
                ((selGroupTabs sel wi).filter (fun t => isValidURL env t.url)) }))
          idx keys := by
  intro keys
  induction keys with
  | nil => intro _ idx; rfl
  | cons wi keys ih =>
    intro hall idx
    have h0 := hall wi (List.mem_cons_self _ _)
    unfold buildSelWindows
    simp [h0, mapIdxFrom,
      ih (fun k hk => hall k (List.mem_cons_of_mem _ hk)) (idx + 1)]

/-- Helper: every window emitted by `buildSelWindows` has the emitted
shape for some group index and source-window key, regardless of which
groups were skipped. -/
theorem mem_buildSelWindows (env : HostEnv) (pm sm : Bool) (sel : List SelItem) :
    ∀ (idx : Nat) (keys : List Nat) (e : String × Window),
      e ∈ buildSelWindows env pm sm sel idx keys →
      ∃ k wi, e =
        ("window_" ++ toString (k + 1),
          { active := k == 0
            incognito := false
            tabs := mapIdxFrom (mkSelTab env pm sm) 0
              ((selGroupTabs sel wi).filter (fun t => isValidURL env t.url)) }) := by
  intro idx keys
  induction keys generalizing idx with
  | nil => intro e h; simp [buildSelWindows] at h
  | cons wi keys ih =>
    intro e h
    unfold buildSelWindows at h
    by_cases hw :
        ((selGroupTabs sel wi).filter (fun t => isValidURL env t.url)).isEmpty = true
    · simp [hw] at h
      exact ih (idx + 1) e h
    · simp [Bool.eq_false_iff.mpr hw] at h
      rcases h with h | h
      · exact ⟨idx, wi, h⟩
      · exact ih (idx + 1) e h

/-- C8 amended: provided every selected source-window group keeps at
least one tab passing URL validation, the reduction renumbers output
windows `window_1, window_2, ...` sequentially from 1 and marks exactly
the first output window active (a group losing all its tabs shifts the
numbering and can leave no window active, as the counterexample shows);
unconditionally — dropped groups or not — every output window has
`incognito = false`, tab ids are renumbered sequentially from 1 within
each window, and the metadata counts are recomputed from the result. -/
theorem reduction_renumbering (env : HostEnv) (sel : List SelItem) (m : MetaIn) :
    ((∀ wi ∈ jsIntKeys (sel.map (fun it => it.windowIndex)),
        ((selGroupTabs sel wi).filter (fun t => isValidURL env t.url)).isEmpty =
          false) →
      ((createSessionFromSelectedTabs env sel m).windows).map Prod.fst =
        (List.range
          ((createSessionFromSelectedTabs env sel m).windows).length).map
          (fun k => "window_" ++ toString (k + 1)) ∧
      ((createSessionFromSelectedTabs env sel m).windows).map
          (fun e => e.2.active) =
        (List.range
          ((createSessionFromSelectedTabs env sel m).windows).length).map
          (fun k => k == 0)) ∧
    (∀ e ∈ (createSessionFromSelectedTabs env sel m).windows,
      e.2.incognito = false) ∧
    (∀ e ∈ (createSessionFromSelectedTabs env sel m).windows,
      e.2.tabs.map (fun t => t.id) =
        (List.range e.2.tabs.length).map (fun k => "tab_" ++ toString (k + 1))) ∧
    (createSessionFromSelectedTabs env sel m).metadata.tab_count =
      (((createSessionFromSelectedTabs env sel m).windows).map
        (fun e => e.2.tabs.length)).sum ∧
    (createSessionFromSelectedTabs env sel m).metadata.window_count =
      ((createSessionFromSelectedTabs env sel m).windows).length := by
  have hwin :
      (createSessionFromSelectedTabs env sel m).windows =
        buildSelWindows env m.privacyMode m.secureMode sel 0
          (jsIntKeys (sel.map (fun it => it.windowIndex))) := rfl
  refine ⟨fun hall => ?_, ?_, ?_, rfl, rfl⟩
  · have heq := buildSelWindows_eq_of_all env m.privacyMode m.secureMode sel
      (jsIntKeys (sel.map (fun it => it.windowIndex))) hall 0
    constructor
    · rw [hwin, heq, mapIdxFrom_length,
        map_mapIdxFrom _ Prod.fst (fun k _ => "window_" ++ toString (k + 1))
          (fun _ _ => rfl),
        mapIdxFrom_eq_rangeMap _ (fun k => "window_" ++ toString (k + 1))
          (fun _ _ => rfl),
        ← List.range_eq_range']
    · rw [hwin, heq, mapIdxFrom_length,
        map_mapIdxFrom (fun k wi =>
            ("window_" ++ toString (k + 1),
              ({ active := k == 0
                 incognito := false
                 tabs := mapIdxFrom (mkSelTab env m.privacyMode m.secureMode) 0
                   ((selGroupTabs sel wi).filter
                     (fun t => isValidURL env t.url)) } : Window)))
          (fun e => e.2.active) (fun k _ => k == 0) (fun _ _ => rfl),
        mapIdxFrom_eq_rangeMap _ (fun k => k == 0) (fun _ _ => rfl),
        ← List.range_eq_range']
  · intro e he
    rw [hwin] at he
    obtain ⟨k, wi, hke⟩ :=
      mem_buildSelWindows env m.privacyMode m.secureMode sel 0 _ e he
    rw [hke]
  · intro e he
    rw [hwin] at he
    obtain ⟨k, wi, hke⟩ :=
      mem_buildSelWindows env m.privacyMode m.secureMode sel 0 _ e he
    rw [hke]
    show (mapIdxFrom (mkSelTab env m.privacyMode m.secureMode) 0 _).map _ = _
    rw [mapIdxFrom_length,
      map_mapIdxFrom (mkSelTab env m.privacyMode m.secureMode)
        (fun t => t.id) (fun k _ => "tab_" ++ toString (k + 1))
        (fun _ _ => rfl),
      mapIdxFrom_eq_rangeMap _ (fun k => "tab_" ++ toString (k + 1))
        (fun _ _ => rfl),
      ← List.range_eq_range']

/-- C8 witness: the renumbering and active-flag pattern, and the forced
incognito flag, for a concrete two-group selection with all URLs
valid. -/
theorem reduction_renumbering_witness :
    (∀ wi ∈ jsIntKeys (selAllValid.map (fun it => it.windowIndex)),
      ((selGroupTabs selAllValid wi).filter
        (fun t => isValidURL demoEnv t.url)).isEmpty = false) ∧
    (((createSessionFromSelectedTabs demoEnv selAllValid demoMeta).windows).map
        Prod.fst =
      (List.range
        ((createSessionFromSelectedTabs demoEnv selAllValid demoMeta).windows).length).map
        (fun k => "window_" ++ toString (k + 1)) ∧
    ((createSessionFromSelectedTabs demoEnv selAllValid demoMeta).windows).map
        (fun e => e.2.active) =
      (List.range
        ((createSessionFromSelectedTabs demoEnv selAllValid demoMeta).windows).length).map
        (fun k => k == 0)) ∧
    ∀ e ∈ (createSessionFromSelectedTabs demoEnv selAllValid demoMeta).windows,
      e.2.incognito = false :=
  ⟨by decide,
    (reduction_renumbering demoEnv selAllValid demoMeta).1 (by decide),
    (reduction_renumbering demoEnv selAllValid demoMeta).2.1⟩
